import Mathlib

/-!
Verification development for the `ragchatbot` repository.

The Python sources are shallowly embedded in Lean:

* Python strings are modelled as lists of characters (`PyStr`); the string
  operations the code uses (`str.split("ENV:")`, `str.startswith`, `str.lower`,
  `pathlib.Path(p).suffix`, `", ".flatten`) are given executable models below,
  each matching the CPython semantics on the inputs the code can see.
* Python dictionaries that the code iterates in insertion order are modelled as
  association lists.
* Calls into external libraries (dynamic import, LLM construction, the Chroma
  vector store, the langchain retrieval chain and document loaders) are
  modelled as explicit "world" records of abstract functions; the embedded
  code is parametric in the world, and the theorems quantify over it.
* Python exceptions are modelled by `Except PyErr`; an uncaught exception is a
  `.error` result, a `try/except` is a `match` on the `Except` value.
-/
/-- Python strings, modelled as lists of characters. -/
abbrev PyStr := List Char

/-- Coerce a Lean string literal to the `PyStr` model. -/
def pyStr (s : String) : PyStr := s.data

/-- The literal separator `"ENV:"` used by `LLMConfigLoader._resolve_env_value`. -/
def ENVSEP : PyStr := pyStr "ENV:"

/-- Python `value.startswith("ENV:")` (src/llm_loader.py line 47). -/
def pyStartsENV (s : PyStr) : Bool := ENVSEP.isPrefixOf s

/-- Python `"ENV:" in s`: does `"ENV:"` occur as a contiguous substring of `s`? -/
def containsENV : PyStr → Bool
  | [] => false
  | c :: rest => ENVSEP.isPrefixOf (c :: rest) || containsENV rest

/-- Fuel-indexed scanner implementing Python `s.split("ENV:")`: scan left to
right; at each position either consume a (leftmost, non-overlapping) occurrence
of the separator and emit the accumulated token, or move one character into the
accumulator.  The fuel argument only serves to make the recursion structural;
`pySplitENV` supplies `s.length`, which `pySplitENVFuel_noenv` and
`pySplitENVFuel_match` show is always enough. -/
def pySplitENVFuel : Nat → PyStr → PyStr → List PyStr
  | _, acc, [] => [acc.reverse]
  | 0, acc, c :: rest => [acc.reverse ++ c :: rest]
  | n + 1, acc, c :: rest =>
    if ENVSEP.isPrefixOf (c :: rest) then
      acc.reverse :: pySplitENVFuel n [] (List.drop 3 rest)
    else
      pySplitENVFuel n (c :: acc) rest

/-- Python `s.split("ENV:")` (src/llm_loader.py line 48). -/
def pySplitENV (s : PyStr) : List PyStr := pySplitENVFuel s.length [] s

/-- Python exceptions raised by the embedded code. -/
inductive PyErr where
  | valueError (msg : PyStr)
  | importError (msg : PyStr)
  | exc (msg : PyStr)
deriving DecidableEq, Repr

/-- Python `str(e)` on a caught exception: its message. -/
def PyErr.toStr : PyErr → PyStr
  | .valueError m => m
  | .importError m => m
  | .exc m => m

/-- The process environment, as read by `os.getenv`: `none` means unset. -/
def Env : Type := PyStr → Option PyStr

/-- LLMConfigLoader._resolve_env_value (src/llm_loader.py lines 37-53).
The caller only passes `str` values, so the `isinstance(value, str)` guard is
always satisfied here.  Note the source computes the variable name as
`value.split("ENV:")[1]`; when the prefix check succeeded the split list has at
least two elements (`pySplitENV_envname` covers the well-behaved case), so the
`getD` default is never read on the executed paths. -/
def resolve_env_value (env : Env) (value : PyStr) : Except PyErr PyStr :=
  if pyStartsENV value then
    let env_var := (pySplitENV value).getD 1 []
    match env env_var with
    | none => .error (.valueError
        (pyStr "Environment variable " ++ env_var ++ pyStr " not found"))
    | some v => .ok v
  else
    .ok value

/-! JSON-like configuration values as seen by `_resolve_config_values`: the
source distinguishes dictionaries (recursed into), strings (passed through
`_resolve_env_value`) and everything else (numbers, booleans, null, arrays —
returned unchanged); the unchanged kinds are collapsed into `atom`, tagged so
that distinct values stay distinct. -/
mutual
inductive ConfigValue where
  | str (s : PyStr)
  | atom (tag : Int)
  | dict (entries : ConfigEntries)
deriving DecidableEq

inductive ConfigEntries where
  | nil
  | cons (key : PyStr) (value : ConfigValue) (rest : ConfigEntries)
deriving DecidableEq
end

/-! One step of the loop body of `_resolve_config_values`: dicts recurse,
strings go through `_resolve_env_value`, anything else is returned unchanged
(src/llm_loader.py lines 66-72). -/
mutual
def resolveValue (env : Env) : ConfigValue → Except PyErr ConfigValue
  | .dict entries => (resolve_config_values env entries).map .dict
  | .str s => (resolve_env_value env s).map .str
  | .atom t => .ok (.atom t)

/-- LLMConfigLoader._resolve_config_values (src/llm_loader.py lines 55-73):
iterate the dictionary in order, rebuilding it; a raised `ValueError`
propagates out of the whole call. -/
def resolve_config_values (env : Env) : ConfigEntries → Except PyErr ConfigEntries
  | .nil => .ok .nil
  | .cons k v rest => do
    let v' ← resolveValue env v
    let rest' ← resolve_config_values env rest
    return .cons k v' rest'
end

/-- The spec's description of `ENV:` resolution, stated in its own words: a
string of the form `ENV:<VAR>` is replaced by the environment's value for
`<VAR>`, where `<VAR>` is everything after the `ENV:` marker; if `<VAR>` is
unset, resolution fails with a configuration error.  Compare
`resolve_env_value`, which instead looks up `value.split("ENV:")[1]`. -/
def specResolveStr (env : Env) (value : PyStr) : Except PyErr PyStr :=
  if pyStartsENV value then
    let env_var := value.drop 4
    match env env_var with
    | none => .error (.valueError
        (pyStr "Environment variable " ++ env_var ++ pyStr " not found"))
    | some v => .ok v
  else
    .ok value

/-! The spec's description of resolution lifted through nested mappings. -/
mutual
def specResolveValue (env : Env) : ConfigValue → Except PyErr ConfigValue
  | .dict entries => (specResolveEntries env entries).map .dict
  | .str s => (specResolveStr env s).map .str
  | .atom t => .ok (.atom t)

def specResolveEntries (env : Env) : ConfigEntries → Except PyErr ConfigEntries
  | .nil => .ok .nil
  | .cons k v rest => do
    let v' ← specResolveValue env v
    let rest' ← specResolveEntries env rest
    return .cons k v' rest'
end

/-- A string value is "simple" when, if it is an `ENV:` reference at all, the
referenced variable name contains no further occurrence of `"ENV:"`. -/
def simpleEnvStr (s : PyStr) : Bool := !pyStartsENV s || !containsENV (s.drop 4)

mutual
def simpleValue : ConfigValue → Bool
  | .str s => simpleEnvStr s
  | .atom _ => true
  | .dict es => simpleEntries es

def simpleEntries : ConfigEntries → Bool
  | .nil => true
  | .cons _ v rest => simpleValue v && simpleEntries rest
end

/-- Python `str.lower()`, restricted to the ASCII range (`Char.toLower`).  The
code only compares lowered strings against the ASCII literals `"true"` and the
nine extension keys; no non-ASCII character lowercases to an ASCII character
relevant to those comparisons (the lone Unicode-to-ASCII lowering, KELVIN SIGN
to `k`, hits none of them), so the ASCII model is observationally adequate. -/
def pyLower (s : PyStr) : PyStr := s.map Char.toLower

/-- An LLM registry entry from the `"llms"` table of config/llm.json: import
target, constructor arguments, and the initialization flag.  The source reads
the flag with `.get("load_on_init", "False")` and compares
`.lower() == "true"`, so the schema stores it as a string; `none` models a
missing key. -/
structure LLMEntry where
  import_module : Option PyStr
  import_class : Option PyStr
  config : ConfigEntries
  load_on_init : Option PyStr
deriving DecidableEq

/-- The parsed llm.json document: the `"llms"` registry (an insertion-ordered
dict, modelled as an association list) and the designated `"managerLLM"`
name. -/
structure LLMConfig where
  llms : List (PyStr × LLMEntry)
  managerLLM : Option PyStr
deriving DecidableEq

/-- A constructed LLM client object; distinct numbers model distinct Python
objects, so that "returns the identical cached object" is equality here. -/
abbrev LLMInstance := Nat

/-- The mutable fields of `LLMConfigLoader`: the loaded config and the
`llm_instances` memoization dict (src/llm_loader.py lines 25-27). -/
structure LoaderState where
  config : LLMConfig
  llm_instances : List (PyStr × LLMInstance)
deriving DecidableEq

/-- Effects `load_llm` performs against the outside world, recorded so the
theorems can state "no re-import, no re-construction". -/
inductive LoaderEvent where
  | importEv (module cls : PyStr)
  | constructEv (module cls : PyStr) (cfg : ConfigEntries)
deriving DecidableEq

/-- The external world `load_llm` runs against: the process environment,
`importlib.import_module`/`getattr` (an `.error` is the caught
`ImportError`/`AttributeError`, carrying `str(e)`), and the LLM class
constructor `llm_class(**resolved_config)` (an `.error` is an exception raised
by the constructor, which `load_llm` does not catch). -/
structure LoaderWorld where
  env : Env
  importClass : PyStr → PyStr → Except PyStr Unit
  construct : PyStr → PyStr → ConfigEntries → Except PyErr LLMInstance

/-- LLMConfigLoader.load_llm (src/llm_loader.py lines 87-129), returning the
Python result (value or uncaught exception), the updated loader state, and the
list of world effects performed. -/
def load_llm (w : LoaderWorld) (st : LoaderState) (llm_name : PyStr) :
    Except PyErr LLMInstance × LoaderState × List LoaderEvent :=
  match st.llm_instances.lookup llm_name with
  | some inst => (.ok inst, st, [])
  | none =>
    match st.config.llms.lookup llm_name with
    | none =>
      (.error (.valueError (pyStr "LLM '" ++ llm_name ++ pyStr "' not found in configuration")),
       st, [])
    | some llm_config =>
      if llm_config.import_module.getD [] = [] ∨ llm_config.import_class.getD [] = [] then
        (.error (.valueError (pyStr "Missing import_module or import_class for " ++ llm_name)),
         st, [])
      else
        match w.importClass (llm_config.import_module.getD []) (llm_config.import_class.getD []) with
        | .error e =>
          (.error (.importError (pyStr "Could not import " ++ llm_config.import_class.getD []
              ++ pyStr " from " ++ llm_config.import_module.getD [] ++ pyStr ": " ++ e)),
           st, [.importEv (llm_config.import_module.getD []) (llm_config.import_class.getD [])])
        | .ok _ =>
          match resolve_config_values w.env llm_config.config with
          | .error e =>
            (.error e, st,
             [.importEv (llm_config.import_module.getD []) (llm_config.import_class.getD [])])
          | .ok resolved_config =>
            match w.construct (llm_config.import_module.getD []) (llm_config.import_class.getD [])
                resolved_config with
            | .error e =>
              (.error e, st,
               [.importEv (llm_config.import_module.getD []) (llm_config.import_class.getD []),
                .constructEv (llm_config.import_module.getD []) (llm_config.import_class.getD [])
                  resolved_config])
            | .ok llm_instance =>
              (.ok llm_instance,
               { st with llm_instances := st.llm_instances ++ [(llm_name, llm_instance)] },
               [.importEv (llm_config.import_module.getD []) (llm_config.import_class.getD []),
                .constructEv (llm_config.import_module.getD []) (llm_config.import_class.getD [])
                  resolved_config])

/-- The condition of `_load_initial_llms` on one entry:
`llm_config.get("load_on_init", "False").lower() == "true"`
(src/llm_loader.py line 80). -/
def load_on_init_set (e : LLMEntry) : Bool :=
  pyLower (e.load_on_init.getD (pyStr "False")) == pyStr "true"

/-- LLMConfigLoader._load_initial_llms (src/llm_loader.py lines 75-85): walk
the registry in order; for each flagged entry call `load_llm` inside
`try/except Exception`, so an error leaves the state as `load_llm` returned it
(all of `load_llm`'s error paths leave the state unchanged) and the walk
continues. -/
def load_initial_llms (w : LoaderWorld) :
    LoaderState → List (PyStr × LLMEntry) → LoaderState
  | st, [] => st
  | st, (llm_name, llm_config) :: rest =>
    if load_on_init_set llm_config then
      load_initial_llms w (load_llm w st llm_name).2.1 rest
    else
      load_initial_llms w st rest

/-- LLMConfigLoader.__init__ (src/llm_loader.py lines 18-30) after
`_load_config` has parsed the JSON file (file reading is outside the model, so
the parsed config is a parameter): start with an empty instance cache and run
`_load_initial_llms`. -/
def loaderInit (w : LoaderWorld) (cfg : LLMConfig) : LoaderState :=
  load_initial_llms w { config := cfg, llm_instances := [] } cfg.llms

/-- Split a string on a single character (every occurrence), Python
`s.split(sep)` for a one-character separator. -/
def splitOnChar (sep : Char) : PyStr → List PyStr
  | [] => [[]]
  | c :: rest =>
    if c = sep then
      [] :: splitOnChar sep rest
    else
      match splitOnChar sep rest with
      | [] => [[c]]
      | t :: ts => (c :: t) :: ts

/-- Python `pathlib.PurePosixPath(path).name`: the final path component.
pathlib normalizes away empty and `"."` segments and keeps the last remaining
segment (`""` when nothing remains, e.g. for `"/"`, `""` or `"."`).  `".."` is
kept like a regular component; its suffix is `""` anyway under the
`0 < i < len - 1` rule below. -/
def pyPathName (path : PyStr) : PyStr :=
  ((splitOnChar '/' path).filter (fun seg => !seg.isEmpty && seg != pyStr ".")).getLastD []

/-- Python `pathlib`'s suffix rule: with `i` the index of the last `'.'` in the
final component, the suffix is `name[i:]` when `0 < i < len(name) - 1` and `""`
otherwise (no dot, leading dot as in `".txt"`, or trailing dot as in
`"foo."`). -/
def pySuffix (name : PyStr) : PyStr :=
  match (name.reverse.findIdx? (· == '.')) with
  | none => []
  | some j =>
    let i := name.length - 1 - j
    if 0 < i ∧ i < name.length - 1 then name.drop i else []

/-- Python `Path(file_path).suffix.lower()` (src/document_processor.py
line 73). -/
def pyExt (path : PyStr) : PyStr := pyLower (pySuffix (pyPathName path))

/-- The six langchain loader classes referenced by `DocumentProcessor`. -/
inductive LoaderClass where
  | PyPDFLoader
  | Docx2txtLoader
  | UnstructuredHTMLLoader
  | CSVLoader
  | UnstructuredExcelLoader
  | TextLoader
deriving DecidableEq, Repr

/-- DocumentProcessor.loader_mapping (src/document_processor.py lines 51-61),
in insertion order. -/
def loader_mapping : List (PyStr × LoaderClass) :=
  [(pyStr ".pdf", .PyPDFLoader),
   (pyStr ".docx", .Docx2txtLoader),
   (pyStr ".doc", .Docx2txtLoader),
   (pyStr ".html", .UnstructuredHTMLLoader),
   (pyStr ".htm", .UnstructuredHTMLLoader),
   (pyStr ".csv", .CSVLoader),
   (pyStr ".xlsx", .UnstructuredExcelLoader),
   (pyStr ".xls", .UnstructuredExcelLoader),
   (pyStr ".txt", .TextLoader)]

/-- The supported extensions, in mapping order (`self.loader_mapping.keys()`). -/
def supportedExts : List PyStr := loader_mapping.map (fun p => p.1)

/-- Python `", ".flatten(xs)`. -/
def joinCommaSpace : List PyStr → PyStr
  | [] => []
  | [x] => x
  | x :: xs => x ++ pyStr ", " ++ joinCommaSpace xs

/-- The unsupported-format error message built at src/document_processor.py
lines 76-79. -/
def unsupportedMsg (ext : PyStr) : PyStr :=
  pyStr "Unsupported file type: " ++ ext ++ pyStr ". Supported types: "
    ++ joinCommaSpace supportedExts

/-- DocumentProcessor.get_loader_for_file (src/document_processor.py lines
63-82): look the lowered suffix up in the static mapping; on a miss raise
`ValueError` with the enumerating message, on a hit construct the mapped
loader class on the file path (a loader instance is modelled as the pair of
its class and the path it was constructed on). -/
def get_loader_for_file (file_path : PyStr) : Except PyErr (LoaderClass × PyStr) :=
  match loader_mapping.lookup (pyExt file_path) with
  | none => .error (.valueError (unsupportedMsg (pyExt file_path)))
  | some loader_class => .ok (loader_class, file_path)

/-- A text chunk produced by loading and splitting one document.  Its content
and metadata come from external parser and splitter libraries, so it is opaque
here. -/
abbrev Chunk := Nat

/-- The external world of `process_document` (src/document_processor.py lines
84-140): loading a file with its langchain loader and splitting it with the
`RecursiveCharacterTextSplitter` either yields the file's chunks or raises
(missing file, parser failure); both steps are library calls, so the whole of
`process_document` is one world function. -/
structure DocWorld where
  processDoc : PyStr → Except PyErr (List Chunk)

/-- DocumentProcessor.process_multiple_documents (src/document_processor.py
lines 142-163): process each file inside `try/except`, extending `all_splits`
with the chunks of the files that succeed and skipping the ones that raise. -/
def process_multiple_documents (w : DocWorld) : List PyStr → List Chunk
  | [] => []
  | file_path :: rest =>
    match w.processDoc file_path with
    | .ok splits => splits ++ process_multiple_documents w rest
    | .error _ => process_multiple_documents w rest

/-- DocumentProcessor.process_directory, non-recursive branch
(src/document_processor.py lines 191-198): `entries` are the
directory-joined paths in `os.listdir` order and `isFile` is
`os.path.isfile`; keep the regular files whose lowered suffix is a key of the
mapping and hand them to `process_multiple_documents`.  (The recursive
`os.walk` branch differs only in how `entries` is enumerated.) -/
def process_directory (w : DocWorld) (isFile : PyStr → Bool) (entries : List PyStr) :
    List Chunk :=
  process_multiple_documents w
    (entries.filter (fun f => isFile f && (loader_mapping.lookup (pyExt f)).isSome))

/-- A langchain `Document` handed to the vector store; opaque here. -/
abbrev Doc := Nat

/-- A Chroma vector store object; opaque here, distinct numbers model distinct
store states. -/
abbrev VS := Nat

/-- The external Chroma operations used by `VectorStoreManager.add_documents`:
`Chroma.from_documents` (create a new persisted collection holding the
documents) and `vectorstore.add_documents` (append to an existing collection,
returning the new store state and the list of IDs of the documents just
added). -/
structure VSWorld where
  fromDocuments : List Doc → VS
  addDocuments : VS → List Doc → VS × List PyStr

/-- The mutable state of `VectorStoreManager` that `add_documents` touches: the
`vectorstore` field, `none` when no store exists yet
(src/vector_store.py lines 47-63). -/
structure VectorStoreManager where
  vectorstore : Option VS
deriving DecidableEq

/-- VectorStoreManager.add_documents (src/vector_store.py lines 65-99):
an empty list returns `[]` immediately; with no existing store the call
creates one via `Chroma.from_documents` and returns `[]` (the `ids` variable
is only bound on the other branch); with an existing store the call appends
and returns the IDs from `vectorstore.add_documents` (note the early `return
ids` on that branch).  Result: (returned IDs, updated manager). -/
def add_documents (w : VSWorld) (m : VectorStoreManager) (documents : List Doc) :
    List PyStr × VectorStoreManager :=
  if documents.isEmpty then
    ([], m)
  else
    match m.vectorstore with
    | none => ([], { vectorstore := some (w.fromDocuments documents) })
    | some vs =>
      ((w.addDocuments vs documents).2, { vectorstore := some (w.addDocuments vs documents).1 })

/-- Message roles as exposed by langchain's `msg.type`: `"human"` for
`HumanMessage`, `"ai"` for `AIMessage`. -/
inductive Role where
  | human
  | ai
deriving DecidableEq, Repr

/-- The `msg.type` string of a message (src/rag_chain.py line 190). -/
def Role.typeStr : Role → PyStr
  | .human => pyStr "human"
  | .ai => pyStr "ai"

/-- A chat message held in memory. -/
structure Message where
  role : Role
  content : PyStr
deriving DecidableEq

/-- Model of langchain's `ConversationBufferMemory`, the class constructed at
src/rag_chain.py lines 47-52: it stores the full list of messages of the
conversation and never discards any.  `ConversationBufferMemory` has no
`max_token_limit` field (that field belongs to
`ConversationTokenBufferMemory`/`ConversationSummaryBufferMemory`); it is a
pydantic model that ignores unknown constructor keywords, so the
`max_token_limit=max_tokens_limit` argument passed by the source has no
effect and no token-based trimming is modelled because none occurs. -/
structure BufMemory where
  messages : List Message
deriving DecidableEq

/-- langchain `memory.save_context({"question": q}, {"answer": a})` as invoked
by the retrieval chain after each successful turn: append the human message
and the AI message; nothing is evicted. -/
def save_context (m : BufMemory) (question answer : PyStr) : BufMemory :=
  { messages := m.messages ++ [{ role := .human, content := question },
                               { role := .ai, content := answer }] }

/-- Total token count of the buffer under a token-counting function `tok`
(langchain would use `llm.get_num_tokens_from_messages`). -/
def memTokens (tok : Message → Nat) (m : BufMemory) : Nat :=
  (m.messages.map tok).sum

/-- A concrete admissible token counter for demonstrations: one token per
character of content. -/
def charTokens (m : Message) : Nat := m.content.length

/-- A `ConversationalRetrievalChain` object; opaque here. -/
abbrev Chain := Nat

/-- The external langchain operations used by `RAGChatbot`:
`ConversationalRetrievalChain.from_llm` applied to the retriever of a vector
store (total once a retriever exists — `get_retriever` raising on an empty
store is modelled in `initialize_chain` itself), and `chain.invoke`, whose
successful result carries the `"answer"` and `"source_documents"` fields and
whose failure is a raised exception. -/
structure ChatWorld where
  buildChain : VS → Chain
  invoke : Chain → PyStr → Except PyErr (PyStr × List Doc)

/-- The fields of `RAGChatbot` (src/rag_chain.py lines 18-56). -/
structure RAGChatbot where
  llm : LLMInstance
  vector_store_manager : VectorStoreManager
  memory : BufMemory
  chain : Option Chain
  return_source_documents : Bool
  max_tokens_limit : Nat
  verbose : Bool
deriving DecidableEq

/-- RAGChatbot._initialize_chain (src/rag_chain.py lines 85-110): ask the
vector store manager for a retriever — `get_retriever` raises `ValueError`
when no store exists (src/vector_store.py lines 165-166), which the
`except` arm turns into `self.chain = None`; otherwise build the
conversational retrieval chain over the store. -/
def initialize_chain (w : ChatWorld) (bot : RAGChatbot) : RAGChatbot :=
  match bot.vector_store_manager.vectorstore with
  | none => { bot with chain := none }
  | some vs => { bot with chain := some (w.buildChain vs) }

/-- The fixed uninitialized-chain answer (src/rag_chain.py line 131). -/
def noDocsAnswer : PyStr :=
  pyStr "I don't have any documents to answer questions from. Please upload documents first."

/-- The dictionary returned by `RAGChatbot.chat`. -/
structure ChatResult where
  answer : PyStr
  source_documents : List Doc
deriving DecidableEq

/-- An LLM/chain invocation performed during a chat turn, recorded so the
theorems can state "no LLM client is invoked". -/
inductive ChatEvent where
  | invokeEv (c : Chain) (question : PyStr)
deriving DecidableEq

/-- RAGChatbot.chat (src/rag_chain.py lines 116-148): if the chain is missing,
retry initialization and short-circuit with the fixed answer if it is still
missing; otherwise invoke the chain inside `try/except`, returning the
answer with its source documents on success (the chain's memory records the
turn) and the `"An error occurred: ..."` answer with no sources on a caught
exception.  Result: (returned dict, chatbot state after the call, world
effects performed). -/
def chat (w : ChatWorld) (bot : RAGChatbot) (question : PyStr) :
    ChatResult × RAGChatbot × List ChatEvent :=
  let bot1 := if bot.chain.isNone then initialize_chain w bot else bot
  match bot1.chain with
  | none =>
    ({ answer := noDocsAnswer, source_documents := [] }, bot1, [])
  | some c =>
    match w.invoke c question with
    | .ok response =>
      ({ answer := response.1, source_documents := response.2 },
       { bot1 with memory := save_context bot1.memory question response.1 },
       [.invokeEv c question])
    | .error e =>
      ({ answer := pyStr "An error occurred: " ++ e.toStr, source_documents := [] },
       bot1, [.invokeEv c question])

/-- RAGChatbot.clear_memory (src/rag_chain.py lines 198-201):
`self.memory.clear()` empties the message buffer; nothing else is touched. -/
def clear_memory (bot : RAGChatbot) : RAGChatbot :=
  { bot with memory := { messages := [] } }

/-- RAGChatbot.get_chat_history (src/rag_chain.py lines 176-196): every
message object has a `type` attribute, so the loop keeps every message,
rendered as a (role, content) pair. -/
def get_chat_history (bot : RAGChatbot) : List (PyStr × PyStr) :=
  bot.memory.messages.map (fun msg => (msg.role.typeStr, msg.content))

/-- Environment for the C2 counterexample: exactly the variable `AENV:B`
(a legal POSIX environment-variable name) is set, to `z`. -/
def envCE : Env := fun n => if n = pyStr "AENV:B" then some (pyStr "z") else none

/-- Environment for the C2 witness. -/
def envW : Env := fun n => if n = pyStr "GROQ_API_KEY" then some (pyStr "gsk-123") else none

/-- A registry entry shaped like the repository's Groq configuration. -/
def entryW : LLMEntry :=
  { import_module := some (pyStr "langchain_groq"),
    import_class := some (pyStr "ChatGroq"),
    config := .cons (pyStr "api_key") (.str (pyStr "ENV:GROQ_API_KEY")) .nil,
    load_on_init := some (pyStr "True") }

/-- A one-entry registry for the witnesses. -/
def cfgW : LLMConfig := { llms := [(pyStr "groq", entryW)], managerLLM := some (pyStr "groq") }

/-- Fresh loader state over `cfgW`. -/
def stW : LoaderState := { config := cfgW, llm_instances := [] }

/-- Loader state over `cfgW` after `groq` has been constructed as instance 7. -/
def stW1 : LoaderState := { config := cfgW, llm_instances := [(pyStr "groq", 7)] }

/-- A world where import and construction succeed. -/
def wW : LoaderWorld :=
  { env := envW,
    importClass := fun _ _ => .ok (),
    construct := fun _ _ _ => .ok 7 }

/-- A world where every import fails. -/
def wFail : LoaderWorld :=
  { env := envW,
    importClass := fun _ _ => .error (pyStr "No module named langchain_groq"),
    construct := fun _ _ _ => .ok 7 }

/-- Vector store manager with no store, for the C4 witness. -/
def vsmNone : VectorStoreManager := { vectorstore := none }

/-- An uninitialized chatbot (fresh process, nothing indexed). -/
def botNoDocs : RAGChatbot :=
  { llm := 7, vector_store_manager := vsmNone, memory := { messages := [] },
    chain := none, return_source_documents := true, max_tokens_limit := 3000,
    verbose := false }

/-- A chat world whose invocations always succeed. -/
def wChat : ChatWorld :=
  { buildChain := fun vs => vs, invoke := fun _ _ => .ok (pyStr "hi", []) }

/-- A ready chatbot (store exists, chain built) for the C5 witness. -/
def botReady : RAGChatbot :=
  { llm := 7, vector_store_manager := { vectorstore := some 3 },
    memory := { messages := [] }, chain := some 5,
    return_source_documents := true, max_tokens_limit := 3000, verbose := false }

/-- A chat world whose invocations always raise. -/
def wErr : ChatWorld :=
  { buildChain := fun vs => vs, invoke := fun _ _ => .error (.exc (pyStr "rate limit")) }

/-- A 1000-character question for the C1 run. -/
def bigQ1 : PyStr := List.replicate 1000 'q'

/-- A 1000-character answer for the C1 run. -/
def bigA1 : PyStr := List.replicate 1000 'a'

/-- A second 1000-character question. -/
def bigQ2 : PyStr := List.replicate 1000 'r'

/-- A second 1000-character answer. -/
def bigA2 : PyStr := List.replicate 1000 'b'

/-- A chat world that answers `bigQ1` with `bigA1` and anything else with
`bigA2`. -/
def wBig : ChatWorld :=
  { buildChain := fun vs => vs,
    invoke := fun _ q => if q == bigQ1 then .ok (bigA1, []) else .ok (bigA2, []) }

/-- A fresh ready chatbot with the default 3000-token memory budget. -/
def botFresh : RAGChatbot :=
  { llm := 7, vector_store_manager := { vectorstore := some 3 },
    memory := { messages := [] }, chain := some 5,
    return_source_documents := true, max_tokens_limit := 3000, verbose := false }

/-- The chatbot after two successful chat turns of `wBig`. -/
def botAfter2 : RAGChatbot := (chat wBig (chat wBig botFresh bigQ1).2.1 bigQ2).2.1

/-- A Chroma world for the C10 witness. -/
def wVS : VSWorld :=
  { fromDocuments := fun docs => docs.length,
    addDocuments := fun vs docs => (vs + docs.length, List.replicate docs.length (pyStr "id")) }

theorem pySplitENVFuel_noenv (s : PyStr) :
    ∀ n acc, containsENV s = false → pySplitENVFuel n acc s = [acc.reverse ++ s] := by
  induction s with
  | nil => intro n acc _; cases n <;> simp [pySplitENVFuel]
  | cons c s ih =>
    intro n acc h
    rw [containsENV] at h
    rcases Bool.or_eq_false_iff.mp h with ⟨h1, h2⟩
    cases n with
    | zero => rfl
    | succ n =>
      rw [pySplitENVFuel, if_neg (by simp [h1]), ih n (c :: acc) h2]
      simp

theorem pySplitENVFuel_match (n : Nat) (acc t : PyStr) :
    pySplitENVFuel (n + 1) acc (ENVSEP ++ t) = acc.reverse :: pySplitENVFuel n [] t := by
  show pySplitENVFuel (n + 1) acc ('E' :: 'N' :: 'V' :: ':' :: t) = _
  rw [pySplitENVFuel, if_pos (by simp [ENVSEP, pyStr, List.isPrefixOf])]
  rfl

theorem pyStartsENV_shape (s : PyStr) (h : pyStartsENV s = true) :
    s = ENVSEP ++ s.drop 4 := by
  rcases s with _ | ⟨c, _ | ⟨d, _ | ⟨e, _ | ⟨f, t⟩⟩⟩⟩ <;>
    simp [pyStartsENV, ENVSEP, pyStr, List.isPrefixOf] at h ⊢
  obtain ⟨hc, hd, he, hf⟩ := h
  subst hc; subst hd; subst he; subst hf
  simp

/-- Splitting `"ENV:" ++ name` when `name` itself contains no `"ENV:"` yields
exactly `["", name]`, so the `[1]` index read by the source is `name`. -/
theorem pySplitENV_envname (name : PyStr) (h : containsENV name = false) :
    pySplitENV (ENVSEP ++ name) = [[], name] := by
  have hl : (ENVSEP ++ name).length = name.length + 3 + 1 := by
    simp [ENVSEP, pyStr]
  rw [pySplitENV, hl, pySplitENVFuel_match, pySplitENVFuel_noenv name _ _ h]
  rfl

theorem resolve_env_value_simple (env : Env) (s : PyStr) (h : simpleEnvStr s = true) :
    resolve_env_value env s = specResolveStr env s := by
  rw [resolve_env_value, specResolveStr]
  by_cases hs : pyStartsENV s = true
  · rw [if_pos hs, if_pos hs]
    have hshape := pyStartsENV_shape s hs
    have hsimple : containsENV (s.drop 4) = false := by
      rw [simpleEnvStr, hs] at h
      simpa using h
    have hvar : (pySplitENV s).getD 1 [] = s.drop 4 := by
      conv_lhs => rw [hshape]
      rw [pySplitENV_envname _ hsimple]
      rfl
    rw [hvar]
  · rw [if_neg hs, if_neg hs]

mutual
theorem resolveValue_simple (env : Env) :
    ∀ v : ConfigValue, simpleValue v = true → resolveValue env v = specResolveValue env v
  | .str s, h => by
    rw [resolveValue, specResolveValue,
      resolve_env_value_simple env s (by simpa [simpleValue] using h)]
  | .atom t, _ => rfl
  | .dict es, h => by
    rw [resolveValue, specResolveValue,
      resolve_config_values_simple env es (by simpa [simpleValue] using h)]

theorem resolve_config_values_simple (env : Env) :
    ∀ es : ConfigEntries, simpleEntries es = true →
      resolve_config_values env es = specResolveEntries env es
  | .nil, _ => rfl
  | .cons k v rest, h => by
    have h1 : simpleValue v = true := by
      have hh := h; rw [simpleEntries, Bool.and_eq_true] at hh; exact hh.1
    have h2 : simpleEntries rest = true := by
      have hh := h; rw [simpleEntries, Bool.and_eq_true] at hh; exact hh.2
    rw [resolve_config_values, specResolveEntries,
      resolveValue_simple env v h1, resolve_config_values_simple env rest h2]
end

theorem pyStartsENV_append (t : PyStr) : pyStartsENV (ENVSEP ++ t) = true := by
  simp [pyStartsENV, ENVSEP, pyStr, List.isPrefixOf]

theorem drop4_append (t : PyStr) : (ENVSEP ++ t).drop 4 = t := by
  have h : (4 : Nat) = ENVSEP.length := rfl
  rw [h, List.drop_left]

theorem simpleEnvStr_append (name : PyStr) (h : containsENV name = false) :
    simpleEnvStr (ENVSEP ++ name) = true := by
  simp [simpleEnvStr, pyStartsENV_append, drop4_append, h]

/-- C2 counterexample: for the value `ENV:AENV:B`, whose `<VAR>` part
`AENV:B` is set in the environment, the claim says resolution replaces the
value with `z`; the code instead computes `"ENV:AENV:B".split("ENV:")[1]`,
which is `A` (the segment between the first two occurrences of `ENV:`),
finds `A` unset, and raises `ValueError` — the spec-level resolution
`specResolveStr` returns `z` as claimed, and the code disagrees with it. -/
theorem C2_counterexample :
    envCE (pyStr "AENV:B") = some (pyStr "z")
    ∧ resolve_env_value envCE (pyStr "ENV:AENV:B")
        = .error (.valueError (pyStr "Environment variable A not found"))
    ∧ specResolveStr envCE (pyStr "ENV:AENV:B") = .ok (pyStr "z") := by
  refine ⟨rfl, rfl, rfl⟩

/-- C2 (amended): for every string constructor-argument value of the form
`ENV:<VAR>` in which `<VAR>` does not itself contain the substring `ENV:`,
resolution replaces the value with the environment variable `<VAR>`'s value,
and fails with a `ValueError` naming `<VAR>` when it is unset; values not
starting with `ENV:` are returned unchanged; and on every configuration value
(including values nested inside sub-mappings) whose `ENV:` references all have
such simple variable names, the code's resolution agrees with the spec's
resolution.  (When `<VAR>` contains `ENV:`, the code instead looks up the
segment of the value between its first two occurrences of `ENV:`; see
`C2_counterexample`.) -/
theorem C2_env_resolution (env : Env) :
    (∀ name w, containsENV name = false → env name = some w →
        resolve_env_value env (ENVSEP ++ name) = .ok w)
    ∧ (∀ name, containsENV name = false → env name = none →
        resolve_env_value env (ENVSEP ++ name)
          = .error (.valueError (pyStr "Environment variable " ++ name ++ pyStr " not found")))
    ∧ (∀ s, pyStartsENV s = false → resolve_env_value env s = .ok s)
    ∧ (∀ v, simpleValue v = true → resolveValue env v = specResolveValue env v)
    ∧ (∀ es, simpleEntries es = true →
        resolve_config_values env es = specResolveEntries env es) := by
  refine ⟨?_, ?_, ?_, resolveValue_simple env, resolve_config_values_simple env⟩
  · intro name w hn he
    rw [resolve_env_value_simple env _ (simpleEnvStr_append name hn)]
    simp [specResolveStr, pyStartsENV_append, drop4_append, he]
  · intro name hn he
    rw [resolve_env_value_simple env _ (simpleEnvStr_append name hn)]
    simp [specResolveStr, pyStartsENV_append, drop4_append, he]
  · intro s hs
    rw [resolve_env_value, if_neg (by simp [hs])]

theorem C2_env_resolution_witness :
    resolve_env_value envW (ENVSEP ++ pyStr "GROQ_API_KEY") = .ok (pyStr "gsk-123")
    ∧ resolve_env_value envW (ENVSEP ++ pyStr "MISSING")
        = .error (.valueError (pyStr "Environment variable MISSING not found"))
    ∧ resolve_env_value envW (pyStr "llama-3.3-70b") = .ok (pyStr "llama-3.3-70b")
    ∧ resolveValue envW
        (.dict (.cons (pyStr "api_key") (.str (pyStr "ENV:GROQ_API_KEY")) .nil))
      = specResolveValue envW
        (.dict (.cons (pyStr "api_key") (.str (pyStr "ENV:GROQ_API_KEY")) .nil))
    ∧ resolve_config_values envW
        (.cons (pyStr "model") (.str (pyStr "llama-3.3-70b"))
          (.cons (pyStr "api_key") (.str (pyStr "ENV:GROQ_API_KEY")) .nil))
      = specResolveEntries envW
        (.cons (pyStr "model") (.str (pyStr "llama-3.3-70b"))
          (.cons (pyStr "api_key") (.str (pyStr "ENV:GROQ_API_KEY")) .nil)) :=
  ⟨(C2_env_resolution envW).1 (pyStr "GROQ_API_KEY") (pyStr "gsk-123") (by decide) (by decide),
   (C2_env_resolution envW).2.1 (pyStr "MISSING") (by decide) (by decide),
   (C2_env_resolution envW).2.2.1 (pyStr "llama-3.3-70b") (by decide),
   (C2_env_resolution envW).2.2.2.1 _ (by decide),
   (C2_env_resolution envW).2.2.2.2 _ (by decide)⟩

theorem lookup_append_singleton {α β : Type} [BEq α] [LawfulBEq α]
    (xs : List (α × β)) (k : α) (v : β) (h : xs.lookup k = none) :
    (xs ++ [(k, v)]).lookup k = some v := by
  induction xs with
  | nil => simp [List.lookup]
  | cons p xs ih =>
    obtain ⟨a, b⟩ := p
    simp only [List.lookup] at h ⊢
    cases hk : (k == a) with
    | true => rw [hk] at h; simp at h
    | false => rw [hk] at h; exact ih h

theorem load_llm_ok_lookup (w : LoaderWorld) (st : LoaderState) (llm_name : PyStr)
    (inst : LLMInstance) (st' : LoaderState) (evs : List LoaderEvent)
    (h : load_llm w st llm_name = (.ok inst, st', evs)) :
    st'.llm_instances.lookup llm_name = some inst := by
  unfold load_llm at h
  split at h
  next i heq =>
    simp only [Prod.mk.injEq, Except.ok.injEq] at h
    obtain ⟨h1, h2, h3⟩ := h
    subst h2
    rw [heq, h1]
  next heq =>
    split at h
    next => simp at h
    next entry heq2 =>
      split at h
      next hm => simp at h
      next hm =>
        split at h
        next e heq3 => simp at h
        next u heq3 =>
          split at h
          next e heq4 => simp at h
          next resolved heq4 =>
            split at h
            next e heq5 => simp at h
            next inst2 heq5 =>
              simp only [Prod.mk.injEq, Except.ok.injEq] at h
              obtain ⟨h1, h2, h3⟩ := h
              subst h2
              subst h1
              exact lookup_append_singleton _ _ _ heq

/-- C3: a successfully constructed LLM instance is memoized: after a call of
`load_llm` that returns an instance, calling `load_llm` again with the same
name returns the identical object, leaves the loader state unchanged, and
performs no world effects at all (no import, no construction) — so an
instance is constructed at most once per name for the loader's lifetime. -/
theorem C3_load_llm_memoized (w : LoaderWorld) (st : LoaderState) (llm_name : PyStr)
    (inst : LLMInstance) (st' : LoaderState) (evs : List LoaderEvent)
    (h : load_llm w st llm_name = (.ok inst, st', evs)) :
    load_llm w st' llm_name = (.ok inst, st', []) := by
  have hl := load_llm_ok_lookup w st llm_name inst st' evs h
  unfold load_llm
  rw [hl]

theorem C3_load_llm_memoized_witness :
    load_llm wW stW1 (pyStr "groq") = (.ok 7, stW1, []) :=
  C3_load_llm_memoized wW stW (pyStr "groq") 7 stW1
    [.importEv (pyStr "langchain_groq") (pyStr "ChatGroq"),
     .constructEv (pyStr "langchain_groq") (pyStr "ChatGroq")
       (.cons (pyStr "api_key") (.str (pyStr "gsk-123")) .nil)]
    rfl

theorem load_llm_state_facts (w : LoaderWorld) (st : LoaderState) (llm_name : PyStr) :
    ((load_llm w st llm_name).2.1).config = st.config
    ∧ ((load_llm w st llm_name).1.isOk = false → (load_llm w st llm_name).2.1 = st) := by
  cases hres : load_llm w st llm_name with
  | mk r rest =>
    obtain ⟨st2, evs⟩ := rest
    simp only [hres]
    unfold load_llm at hres
    split at hres
    next i heq =>
      simp only [Prod.mk.injEq] at hres
      obtain ⟨h1, h2, h3⟩ := hres
      subst h2
      exact ⟨rfl, fun _ => rfl⟩
    next heq =>
      split at hres
      next heq2 =>
        simp only [Prod.mk.injEq] at hres
        obtain ⟨h1, h2, h3⟩ := hres
        subst h2
        exact ⟨rfl, fun _ => rfl⟩
      next entry heq2 =>
        split at hres
        next hm =>
          simp only [Prod.mk.injEq] at hres
          obtain ⟨h1, h2, h3⟩ := hres
          subst h2
          exact ⟨rfl, fun _ => rfl⟩
        next hm =>
          split at hres
          next e heq3 =>
            simp only [Prod.mk.injEq] at hres
            obtain ⟨h1, h2, h3⟩ := hres
            subst h2
            exact ⟨rfl, fun _ => rfl⟩
          next u heq3 =>
            split at hres
            next e heq4 =>
              simp only [Prod.mk.injEq] at hres
              obtain ⟨h1, h2, h3⟩ := hres
              subst h2
              exact ⟨rfl, fun _ => rfl⟩
            next resolved heq4 =>
              split at hres
              next e heq5 =>
                simp only [Prod.mk.injEq] at hres
                obtain ⟨h1, h2, h3⟩ := hres
                subst h2
                exact ⟨rfl, fun _ => rfl⟩
              next inst2 heq5 =>
                simp only [Prod.mk.injEq] at hres
                obtain ⟨h1, h2, h3⟩ := hres
                subst h2
                refine ⟨rfl, fun hcon => ?_⟩
                rw [← h1] at hcon
                simp [Except.isOk, Except.toBool] at hcon

theorem load_initial_llms_config (w : LoaderWorld) :
    ∀ (entries : List (PyStr × LLMEntry)) (st : LoaderState),
      (load_initial_llms w st entries).config = st.config := by
  intro entries
  induction entries with
  | nil => intro st; rfl
  | cons p rest ih =>
    intro st
    obtain ⟨n, e⟩ := p
    simp only [load_initial_llms]
    by_cases hf : load_on_init_set e = true
    · rw [if_pos hf, ih ((load_llm w st n).2.1), (load_llm_state_facts w st n).1]
    · rw [if_neg hf, ih st]

theorem load_initial_llms_allfail (w : LoaderWorld) :
    ∀ (entries : List (PyStr × LLMEntry)) (st : LoaderState),
      (∀ p ∈ entries, load_on_init_set p.2 = true → (load_llm w st p.1).1.isOk = false) →
      load_initial_llms w st entries = st := by
  intro entries
  induction entries with
  | nil => intro st _; rfl
  | cons p rest ih =>
    intro st hall
    obtain ⟨n, e⟩ := p
    simp only [load_initial_llms]
    by_cases hf : load_on_init_set e = true
    · rw [if_pos hf]
      have hfail : (load_llm w st n).1.isOk = false :=
        hall (n, e) (List.mem_cons_self _ _) hf
      rw [(load_llm_state_facts w st n).2 hfail]
      exact ih st (fun p hp hflag => hall p (List.mem_cons_of_mem _ hp) hflag)
    · rw [if_neg hf]
      exact ih st (fun p hp hflag => hall p (List.mem_cons_of_mem _ hp) hflag)

/-- C6: loader creation always yields a loader holding the given registry;
when every entry whose initialization flag is set fails to construct (from the
fresh empty-cache state — the state every such attempt actually runs in when
all of them fail), `LLMConfigLoader.__init__` still completes, returning the
loader with an empty instance cache: eager-load failures are skipped, never
fatal; and a flagged entry whose construction succeeds is constructed eagerly
at loader-creation time — its instance is already in the cache when
`__init__` returns. -/
theorem C6_load_on_init_nonfatal (w : LoaderWorld) (cfg : LLMConfig) :
    (loaderInit w cfg).config = cfg
    ∧ ((∀ p ∈ cfg.llms, load_on_init_set p.2 = true →
          (load_llm w { config := cfg, llm_instances := [] } p.1).1.isOk = false) →
        loaderInit w cfg = { config := cfg, llm_instances := [] })
    ∧ (∀ n e i, cfg.llms = [(n, e)] → load_on_init_set e = true →
        (load_llm w { config := cfg, llm_instances := [] } n).1 = .ok i →
        (loaderInit w cfg).llm_instances.lookup n = some i) := by
  refine ⟨load_initial_llms_config w cfg.llms { config := cfg, llm_instances := [] },
    fun h => load_initial_llms_allfail w cfg.llms { config := cfg, llm_instances := [] } h,
    ?_⟩
  intro n e i hllms hflag hok
  have heq : load_llm w { config := cfg, llm_instances := [] } n
      = (.ok i, (load_llm w { config := cfg, llm_instances := [] } n).2.1,
         (load_llm w { config := cfg, llm_instances := [] } n).2.2) := by
    conv_lhs => rw [show load_llm w { config := cfg, llm_instances := [] } n
      = ((load_llm w { config := cfg, llm_instances := [] } n).1,
         (load_llm w { config := cfg, llm_instances := [] } n).2.1,
         (load_llm w { config := cfg, llm_instances := [] } n).2.2) from rfl]
    rw [hok]
  have hlook := load_llm_ok_lookup w { config := cfg, llm_instances := [] } n i _ _ heq
  rw [loaderInit, hllms]
  simp only [load_initial_llms]
  rw [if_pos hflag]
  exact hlook

theorem C6_load_on_init_nonfatal_witness :
    loaderInit wFail cfgW = { config := cfgW, llm_instances := [] }
    ∧ (loaderInit wW cfgW).llm_instances.lookup (pyStr "groq") = some 7 :=
  ⟨(C6_load_on_init_nonfatal wFail cfgW).2.1 (by decide),
   (C6_load_on_init_nonfatal wW cfgW).2.2 (pyStr "groq") entryW 7 rfl (by decide) rfl⟩

/-- C4: when the chain is uninitialized and chain construction fails because
no documents are indexed (the vector store does not exist), a chat request
returns the fixed no-documents answer with an empty source_documents list, the
chatbot state is unchanged, and no chain/LLM invocation happens (the effect
list is empty). -/
theorem C4_uninitialized_chat (w : ChatWorld) (bot : RAGChatbot) (q : PyStr)
    (h1 : bot.chain = none) (h2 : bot.vector_store_manager.vectorstore = none) :
    chat w bot q = ({ answer := noDocsAnswer, source_documents := [] }, bot, []) := by
  obtain ⟨llm, vsm, mem, ch, rsd, mtl, vb⟩ := bot
  obtain ⟨vs⟩ := vsm
  subst h1
  subst h2
  rfl

theorem C4_uninitialized_chat_witness :
    chat wChat botNoDocs (pyStr "What is in my documents?")
      = ({ answer := noDocsAnswer, source_documents := [] }, botNoDocs, []) :=
  C4_uninitialized_chat wChat botNoDocs (pyStr "What is in my documents?") rfl rfl

/-- C5: when the chain is initialized and its invocation raises, `chat`
catches the exception and returns the error-message answer with an empty
source list; the chatbot state is completely unchanged (in particular the
chain is still in place), so it is back in the ready state for subsequent
requests. -/
theorem C5_chain_error_caught (w : ChatWorld) (bot : RAGChatbot) (q : PyStr)
    (c : Chain) (e : PyErr)
    (hc : bot.chain = some c) (hi : w.invoke c q = .error e) :
    chat w bot q
      = ({ answer := pyStr "An error occurred: " ++ e.toStr, source_documents := [] },
         bot, [.invokeEv c q]) := by
  simp [chat, hc, hi]

theorem C5_chain_error_caught_witness :
    chat wErr botReady (pyStr "hello")
      = ({ answer := pyStr "An error occurred: rate limit", source_documents := [] },
         botReady, [.invokeEv 5 (pyStr "hello")]) :=
  C5_chain_error_caught wErr botReady (pyStr "hello") 5 (.exc (pyStr "rate limit")) rfl rfl

/-- C9: `clear_memory` empties the conversation buffer — `get_chat_history`
then returns the empty sequence whatever the buffer held, i.e. regardless of
how many chat turns preceded the clear — and it leaves every other field of
the chatbot untouched: the chain object, the vector store manager, the LLM and
all flags are exactly the ones from before the call. -/
theorem C9_clear_memory_frame (bot : RAGChatbot) :
    get_chat_history (clear_memory bot) = []
    ∧ (clear_memory bot).chain = bot.chain
    ∧ (clear_memory bot).vector_store_manager = bot.vector_store_manager
    ∧ (clear_memory bot).llm = bot.llm
    ∧ (clear_memory bot).return_source_documents = bot.return_source_documents
    ∧ (clear_memory bot).max_tokens_limit = bot.max_tokens_limit
    ∧ (clear_memory bot).verbose = bot.verbose
    ∧ (clear_memory bot).memory.messages = [] :=
  ⟨rfl, rfl, rfl, rfl, rfl, rfl, rfl, rfl⟩

set_option maxRecDepth 100000 in
/-- C1 (refuting the claimed invariant, which the code's own docstring also
states as the intent of `max_tokens_limit`): after two chat turns whose
messages hold 4000 characters in total — hence more than 3000 tokens under
any tokenizer charging at least one token per character, and `charTokens`
concretely — the conversation memory holds all four messages, the oldest
message is still first (nothing was trimmed), and its token count 4000
exceeds the configured budget of 3000: the buffer kept by
`ConversationBufferMemory` is unbounded, and `save_context` is append-only
for every buffer and every turn. -/
theorem C1_memory_exceeds_token_budget :
    botFresh.max_tokens_limit = 3000
    ∧ memTokens charTokens botAfter2.memory = 4000
    ∧ botFresh.max_tokens_limit < memTokens charTokens botAfter2.memory
    ∧ botAfter2.memory.messages.length = 4
    ∧ botAfter2.memory.messages.head? = some { role := .human, content := bigQ1 }
    ∧ ∀ (m : BufMemory) (q a : PyStr),
        (save_context m q a).messages = m.messages ++
          [{ role := .human, content := q }, { role := .ai, content := a }] := by
  refine ⟨rfl, ?_, ?_, ?_, ?_, fun m q a => rfl⟩ <;> decide

/-- C10: only the append path returns per-document IDs.  Adding an empty list
is a no-op returning `[]`; adding to a not-yet-existing store creates it via
`Chroma.from_documents` and returns `[]`; adding to an existing store appends
and returns the IDs reported by the store. -/
theorem C10_add_documents_ids (w : VSWorld) (m : VectorStoreManager) (documents : List Doc) :
    (documents = [] → add_documents w m documents = ([], m))
    ∧ (documents ≠ [] → m.vectorstore = none →
        add_documents w m documents
          = ([], { vectorstore := some (w.fromDocuments documents) }))
    ∧ (∀ vs, documents ≠ [] → m.vectorstore = some vs →
        add_documents w m documents
          = ((w.addDocuments vs documents).2,
             { vectorstore := some (w.addDocuments vs documents).1 })) := by
  refine ⟨?_, ?_, ?_⟩
  · intro h; subst h; rfl
  · intro h hm
    cases documents with
    | nil => exact absurd rfl h
    | cons d ds => simp [add_documents, hm]
  · intro vs h hm
    cases documents with
    | nil => exact absurd rfl h
    | cons d ds => simp [add_documents, hm]

theorem C10_add_documents_ids_witness :
    add_documents wVS { vectorstore := none } [] = ([], { vectorstore := none })
    ∧ add_documents wVS { vectorstore := none } [10, 11]
        = ([], { vectorstore := some (wVS.fromDocuments [10, 11]) })
    ∧ add_documents wVS { vectorstore := some 2 } [10, 11]
        = ((wVS.addDocuments 2 [10, 11]).2,
           { vectorstore := some (wVS.addDocuments 2 [10, 11]).1 }) :=
  ⟨(C10_add_documents_ids wVS { vectorstore := none } []).1 rfl,
   (C10_add_documents_ids wVS { vectorstore := none } [10, 11]).2.1 (by decide) rfl,
   (C10_add_documents_ids wVS { vectorstore := some 2 } [10, 11]).2.2 2 (by decide) rfl⟩

theorem lookup_eq_none_of_not_mem {α β : Type} [BEq α] [LawfulBEq α]
    (xs : List (α × β)) (k : α) (h : k ∉ xs.map Prod.fst) :
    xs.lookup k = none := by
  induction xs with
  | nil => rfl
  | cons p xs ih =>
    obtain ⟨a, b⟩ := p
    simp only [List.map_cons, List.mem_cons] at h
    push_neg at h
    obtain ⟨h1, h2⟩ := h
    simp only [List.lookup]
    rw [beq_eq_false_iff_ne.mpr h1]
    exact ih h2

theorem supported_infix_join : ∀ e ∈ supportedExts, e <:+: joinCommaSpace supportedExts := by
  decide

/-- C7: for every file path, if its lowered extension is not one of the nine
supported extensions, requesting a loader fails with the unsupported-format
`ValueError` whose message enumerates every supported extension; if the
extension is supported, the statically mapped loader class, constructed on the
file path, is returned. -/
theorem C7_extension_mapping (file_path : PyStr) :
    (pyExt file_path ∉ supportedExts →
        get_loader_for_file file_path
          = .error (.valueError (unsupportedMsg (pyExt file_path)))
        ∧ ∀ e ∈ supportedExts, e <:+: unsupportedMsg (pyExt file_path))
    ∧ (∀ cls, loader_mapping.lookup (pyExt file_path) = some cls →
        get_loader_for_file file_path = .ok (cls, file_path)) := by
  constructor
  · intro hmem
    have hl : loader_mapping.lookup (pyExt file_path) = none :=
      lookup_eq_none_of_not_mem loader_mapping (pyExt file_path) hmem
    constructor
    · unfold get_loader_for_file
      rw [hl]
    · intro e he
      have h1 : e <:+: joinCommaSpace supportedExts := supported_infix_join e he
      have h2 : joinCommaSpace supportedExts <:+: unsupportedMsg (pyExt file_path) := by
        unfold unsupportedMsg
        exact (List.suffix_append _ _).isInfix
      exact h1.trans h2
  · intro cls hcls
    unfold get_loader_for_file
    rw [hcls]

theorem C7_extension_mapping_witness :
    get_loader_for_file (pyStr "report.PDF") = .ok (.PyPDFLoader, pyStr "report.PDF")
    ∧ get_loader_for_file (pyStr "notes.xyz")
        = .error (.valueError (unsupportedMsg (pyStr ".xyz")))
    ∧ pyStr ".docx" <:+: unsupportedMsg (pyStr ".xyz") :=
  ⟨(C7_extension_mapping (pyStr "report.PDF")).2 .PyPDFLoader (by decide),
   ((C7_extension_mapping (pyStr "notes.xyz")).1 (by decide)).1,
   ((C7_extension_mapping (pyStr "notes.xyz")).1 (by decide)).2 (pyStr ".docx") (by decide)⟩

theorem process_multiple_eq (w : DocWorld) (file_paths : List PyStr) :
    process_multiple_documents w file_paths
      = (file_paths.filterMap (fun p => (w.processDoc p).toOption)).flatten := by
  induction file_paths with
  | nil => rfl
  | cons p rest ih =>
    cases hp : w.processDoc p with
    | ok splits =>
      simp [process_multiple_documents, hp, ih, List.filterMap_cons, Except.toOption]
    | error e =>
      simp [process_multiple_documents, hp, ih, List.filterMap_cons, Except.toOption]

/-- C8: batch processing is exactly "concatenate the chunks of the files that
process successfully, in input order": a per-file failure contributes nothing
and does not abort the rest of the batch; and directory processing is batch
processing of the regular files with supported extensions, so it isolates
per-file failures the same way. -/
theorem C8_batch_failures_isolated (w : DocWorld) (file_paths : List PyStr)
    (isFile : PyStr → Bool) (entries : List PyStr) :
    process_multiple_documents w file_paths
      = (file_paths.filterMap (fun p => (w.processDoc p).toOption)).flatten
    ∧ process_directory w isFile entries
      = ((entries.filter
            (fun f => isFile f && (loader_mapping.lookup (pyExt f)).isSome)).filterMap
          (fun p => (w.processDoc p).toOption)).flatten :=
  ⟨process_multiple_eq w file_paths, process_multiple_eq w _⟩
